import Mathlib

/-!
# AutoCure shop-management server: verification of the appointment
# lifecycle engine, chat context pipeline and diagnostic simulation

A shallow embedding of the TypeScript server code (Mongoose models and
Express route handlers) as executable Lean definitions, together with
theorems settling the specified behavioural properties.

Conventions of the embedding:
* machine time instants are minutes since an arbitrary epoch (`Nat`);
  a calendar date is a day number, so the instant of a date plus an
  `HH:MM` time-of-day is `day * 1440 + H * 60 + M`;
* money amounts are exact rationals (`ℚ`); the JavaScript
  `Math.round(x * 100) / 100` becomes `roundCents`;
* JavaScript string operations (`toLowerCase`, `includes`, `split`,
  `parseInt`) are mirrored by executable helpers below;
* database lookups and random draws are passed in as explicit
  arguments (association lists, oracle pick sequences), so every
  handler is a pure function of its inputs.
-/

set_option autoImplicit false
set_option maxRecDepth 100000

namespace AutoCure

/-! ## String helpers mirroring the JavaScript primitives -/

/-- Is `needle` a prefix of the second list? (character-exact) -/
def isPrefixList : List Char → List Char → Bool
  | [], _ => true
  | _ :: _, [] => false
  | a :: as, b :: bs => a == b && isPrefixList as bs

/-- Does the haystack contain `needle` as a contiguous sublist? -/
def containsList (needle : List Char) : List Char → Bool
  | [] => isPrefixList needle []
  | c :: rest => isPrefixList needle (c :: rest) || containsList needle rest

/-- JavaScript `s.includes(sub)`: substring containment. -/
def strIncludes (s sub : String) : Bool :=
  containsList sub.toList s.toList

/-- JavaScript `s.toLowerCase()` restricted to ASCII, which is all the
source ever lowercases. -/
def strToLower (s : String) : String :=
  String.mk (s.toList.map Char.toLower)

/-- JavaScript `s.startsWith(p)`. -/
def strStartsWith (s p : String) : Bool :=
  isPrefixList p.toList s.toList

/-- JavaScript `Math.round(x * 100) / 100`, used to round money to
cents. `round` rounds half towards `+∞`, exactly like `Math.round`. -/
def roundCents (x : ℚ) : ℚ :=
  (round (x * 100) : ℤ) / 100

/-! ## Appointment model (`src/server/src/models/Appointment.ts`) -/

/-- One entry of an appointment timeline.  `notificationSent` defaults
to `false` in the Mongoose sub-schema. -/
structure TimelineEntry where
  timestamp : Nat
  status : String
  description : String
  notificationSent : Bool
deriving Repr, DecidableEq

/-- The fields of an Appointment document the verified operations
touch.  Statuses are the raw enum strings
`scheduled | confirmed | in-progress | completed | cancelled | no-show`. -/
structure Appointment where
  customer : String
  vehicle : String
  services : List String
  appointmentDate : Nat
  appointmentTime : String
  estimatedDuration : Nat
  status : String
  priority : String
  customerConcerns : String
  timeline : List TimelineEntry
  estimatedCost : ℚ
deriving Repr, DecidableEq

/-- `appointmentSchema.methods.addTimelineEntry`: push a new entry
`{status, description, timestamp: now}` onto the timeline and set the
document status to the pushed status. -/
def addTimelineEntry (a : Appointment) (status description : String)
    (now : Nat) : Appointment :=
  { a with
    timeline := a.timeline ++
      [{ timestamp := now, status := status, description := description,
         notificationSent := false }],
    status := status }

/-- `appointmentSchema.methods.getProgressPercentage`: fixed table with
default 0 for statuses outside it. -/
def getProgressPercentage (a : Appointment) : Nat :=
  if a.status = "scheduled" then 10
  else if a.status = "confirmed" then 20
  else if a.status = "in-progress" then 60
  else if a.status = "completed" then 100
  else if a.status = "cancelled" then 0
  else if a.status = "no-show" then 0
  else 0

/-- JavaScript `str.split(sep)` on a single-character separator,
over explicit character lists. -/
def splitOnChar (sep : Char) : List Char → List (List Char)
  | [] => [[]]
  | c :: rest =>
    match splitOnChar sep rest with
    | [] => if c == sep then [[], []] else [[c]]
    | h :: t => if c == sep then [] :: h :: t else (c :: h) :: t

/-- JavaScript `parseInt` on the digit strings produced by the
schema-validated `HH:MM` format: the value of a nonempty all-digit
character list, `none` otherwise (`parseInt` then yields `NaN`). -/
def digitsVal? : List Char → Option Nat
  | [] => none
  | l => l.foldl
      (fun acc c => match acc with
        | none => none
        | some n => if c.isDigit then some (n * 10 + (c.toNat - 48)) else none)
      (some 0)

/-- JavaScript `appointmentTime.split(':')` destructured into
`[hours, minutes]` and fed to `parseInt`: parse `"HH:MM"` into
minutes-of-day components. -/
def parseTimeParts (time : String) : Option (Nat × Nat) :=
  match splitOnChar ':' time.toList with
  | h :: m :: _ =>
      match digitsVal? h, digitsVal? m with
      | some hv, some mv => some (hv, mv)
      | _, _ => none
  | _ => none

/-- The `isOverdue` virtual: combine the appointment date with the
parsed `HH:MM` time into one instant; overdue iff `now` is past that
instant and the status is still `scheduled`.  An unparseable time
yields an invalid date in JavaScript, whose comparison is `false`. -/
def isOverdue (now : Nat) (a : Appointment) : Bool :=
  match parseTimeParts a.appointmentTime with
  | some (h, m) =>
      decide (now > a.appointmentDate * 1440 + h * 60 + m) &&
        a.status == "scheduled"
  | none => false

/-! ## C1: addTimelineEntry appends exactly one entry -/

/-- C1: every call to `addTimelineEntry status description` grows the
timeline by exactly one entry, leaves every previously present entry
unchanged and in place, appends an entry carrying the given status and
description, and afterwards the appointment status equals the appended
(most recent) entry status. -/
theorem addTimelineEntry_appends_and_syncs_status
    (a : Appointment) (s d : String) (t : Nat) :
    (addTimelineEntry a s d t).timeline.length = a.timeline.length + 1 ∧
    (addTimelineEntry a s d t).timeline.take a.timeline.length = a.timeline ∧
    (addTimelineEntry a s d t).timeline.getLast? =
      some { timestamp := t, status := s, description := d,
             notificationSent := false } ∧
    (addTimelineEntry a s d t).status = s ∧
    ((addTimelineEntry a s d t).timeline.getLast?.map TimelineEntry.status)
      = some (addTimelineEntry a s d t).status := by
  refine ⟨?_, ?_, ?_, rfl, ?_⟩ <;>
    simp [addTimelineEntry, List.take_left]

/-- A concrete appointment used to instantiate hypotheses of the
lifecycle theorems: day 5, 09:30, status `scheduled`. -/
def sampleAppointment : Appointment :=
  { customer := "cust1", vehicle := "veh1", services := ["svc1"],
    appointmentDate := 5, appointmentTime := "09:30",
    estimatedDuration := 60, status := "scheduled", priority := "normal",
    customerConcerns := "", estimatedCost := 100,
    timeline := [{ timestamp := 0, status := "scheduled",
                   description := "Appointment scheduled",
                   notificationSent := false }] }

/-! ## C5: the isOverdue virtual -/

/-- C5: whenever the stored `HH:MM` string parses, `isOverdue` is true
iff the status is `scheduled` and the current time is strictly past the
instant combining the appointment date with the parsed time; for every
other status (including `confirmed`) it is false even when that instant
has passed. -/
theorem isOverdue_iff_scheduled_and_past
    (now : Nat) (a : Appointment) (h m : Nat)
    (hp : parseTimeParts a.appointmentTime = some (h, m)) :
    isOverdue now a = true ↔
      (a.status = "scheduled" ∧
        now > a.appointmentDate * 1440 + h * 60 + m) := by
  simp only [isOverdue, hp, Bool.and_eq_true, decide_eq_true_eq,
    beq_iff_eq]
  tauto

/-- Witness for C5 at a concrete past-due scheduled appointment
(day 5 at 09:30 is minute 7770; now = 7771). -/
theorem isOverdue_iff_scheduled_and_past_witness :
    isOverdue 7771 sampleAppointment = true ↔
      (sampleAppointment.status = "scheduled" ∧
        7771 > sampleAppointment.appointmentDate * 1440 + 9 * 60 + 30) :=
  isOverdue_iff_scheduled_and_past 7771 sampleAppointment 9 30 (by rfl)

/-! ## Service model (`src/server/src/models/Service.ts`) -/

/-- A part attached to a catalog service.  `estimatedCost` is optional
in the schema; the source reads it as `part.estimatedCost || 0`. -/
structure ServicePart where
  name : String
  estimatedCost : Option ℚ
deriving Repr, DecidableEq

/-- A price modifier: free-text condition plus optional multiplier and
optional additive surcharge.  The source guards each field with a
JavaScript truthiness test (`if (modifier.multiplier)`), so a stored 0
behaves exactly like an absent field. -/
structure PriceModifier where
  condition : String
  multiplier : Option ℚ
  additionalCost : Option ℚ
deriving Repr, DecidableEq

/-- The catalog-service fields the verified operations touch. -/
structure Service where
  id : String
  name : String
  basePrice : ℚ
  estimatedDuration : Nat
  parts : List ServicePart
  priceModifiers : List PriceModifier
  isActive : Bool
deriving Repr, DecidableEq

/-- The vehicle-document fields the verified operations touch.  The
schema requires `make` (a required Mongoose String rejects the empty
string), which the truthiness test `vehicleInfo.make && ...` relies
on. -/
structure Vehicle where
  id : String
  owner : String
  make : String
  model : String
  year : Nat
  vin : String
  mileage : Nat
deriving Repr, DecidableEq

/-- One iteration of the `priceModifiers.forEach` loop in
`calculateTotalCost`: if the vehicle has a make and the lowercased
condition contains the lowercased make, apply the truthy multiplier
(multiply) and then the truthy additional cost (add). -/
def applyPriceModifier (vmake : String) (total : ℚ)
    (m : PriceModifier) : ℚ :=
  if (vmake != "") &&
      strIncludes (strToLower m.condition) (strToLower vmake) then
    let t1 := match m.multiplier with
      | some k => if k = 0 then total else total * k
      | none => total
    match m.additionalCost with
    | some c => if c = 0 then t1 else t1 + c
    | none => t1
  else total

/-- `serviceSchema.methods.calculateTotalCost`: base price plus the sum
of part costs, then every matching price modifier in list order, and
finally `Math.round(totalCost * 100) / 100`. -/
def calculateTotalCost (s : Service) (v : Vehicle) : ℚ :=
  let partsCost := s.parts.foldl (fun sum p => sum + p.estimatedCost.getD 0) 0
  let totalCost := s.basePrice + partsCost
  roundCents (s.priceModifiers.foldl (applyPriceModifier v.make) totalCost)

/-- The cost computation exactly as the specification words it: base
price plus the sum of the parts' estimated costs, then for every
modifier (in list order) whose condition case-insensitively contains
the vehicle's make, multiply by the multiplier and add the additive
cost, with the final result rounded to 2 decimals. -/
def calculateTotalCostSpec (s : Service) (v : Vehicle) : ℚ :=
  roundCents (s.priceModifiers.foldl
    (fun acc m =>
      if strIncludes (strToLower m.condition) (strToLower v.make) then
        acc * m.multiplier.getD 1 + m.additionalCost.getD 0
      else acc)
    (s.basePrice + (s.parts.map (fun p => p.estimatedCost.getD 0)).sum))

theorem parts_foldl_eq_sum (l : List ServicePart) (c : ℚ) :
    l.foldl (fun sum p => sum + p.estimatedCost.getD 0) c =
      c + (l.map (fun p => p.estimatedCost.getD 0)).sum := by
  induction l generalizing c with
  | nil => simp
  | cons p t ih => simp [ih, add_assoc]

theorem modifiers_foldl_eq_spec (vmake : String) (hmake : vmake ≠ "")
    (mods : List PriceModifier)
    (hm : ∀ m ∈ mods, m.multiplier ≠ some 0) (acc : ℚ) :
    mods.foldl (applyPriceModifier vmake) acc =
      mods.foldl
        (fun acc m =>
          if strIncludes (strToLower m.condition) (strToLower vmake) then
            acc * m.multiplier.getD 1 + m.additionalCost.getD 0
          else acc) acc := by
  induction mods generalizing acc with
  | nil => rfl
  | cons m t ih =>
      have hm0 : m.multiplier ≠ some 0 := hm m (List.mem_cons_self m t)
      have ht : ∀ x ∈ t, x.multiplier ≠ some 0 :=
        fun x hx => hm x (List.mem_cons_of_mem m hx)
      simp only [List.foldl_cons]
      rw [ih ht]
      congr 1
      unfold applyPriceModifier
      have hne : (vmake != "") = true := by
        simp [bne_iff_ne, hmake]
      rw [hne, Bool.true_and]
      by_cases hc : strIncludes (strToLower m.condition) (strToLower vmake)
      · simp only [if_pos hc]
        cases hmul : m.multiplier with
        | none =>
            cases hadd : m.additionalCost with
            | none => simp
            | some c =>
                by_cases hc0 : c = 0 <;> simp [hc0]
        | some k =>
            have hk : k ≠ 0 := by
              intro h0; exact hm0 (by rw [hmul, h0])
            cases hadd : m.additionalCost with
            | none => simp [hk]
            | some c =>
                by_cases hc0 : c = 0 <;> simp [hk, hc0]
      · simp [if_neg hc, hc]

/-! ## C4: calculateTotalCost matches the specified algorithm -/

/-- C4: for every service and (schema-valid, so make nonempty) vehicle,
`calculateTotalCost` equals the specified computation: base price plus
part costs, then each modifier whose condition case-insensitively
contains the make multiplies then adds, compounding in list order,
rounded to 2 decimals.  The hypothesis on multipliers reflects the
JavaScript truthiness boundary: a stored multiplier of 0 is
indistinguishable from an absent one (`none`). -/
theorem calculateTotalCost_matches_spec (s : Service) (v : Vehicle)
    (hmake : v.make ≠ "")
    (hm : ∀ m ∈ s.priceModifiers, m.multiplier ≠ some 0) :
    calculateTotalCost s v = calculateTotalCostSpec s v := by
  simp only [calculateTotalCost, calculateTotalCostSpec]
  rw [parts_foldl_eq_sum, zero_add,
    modifiers_foldl_eq_spec v.make hmake s.priceModifiers hm]

/-- The service and vehicle of the worked example: base price 100, one
part costing 20, one modifier for condition "bmw" with multiplier 1.2
and surcharge 10. -/
def sampleService : Service :=
  { id := "svc1", name := "Sample", basePrice := 100,
    estimatedDuration := 60,
    parts := [{ name := "filter", estimatedCost := some 20 }],
    priceModifiers := [{ condition := "bmw", multiplier := some (6/5),
                         additionalCost := some 10 }],
    isActive := true }

def sampleBmw : Vehicle :=
  { id := "veh1", owner := "cust1", make := "BMW", model := "330i",
    year := 2018, vin := "WBA00000000000000", mileage := 60000 }

/-- Witness for C4: the worked example ((100+20) x 1.2) + 10 = 154. -/
theorem calculateTotalCost_matches_spec_witness :
    calculateTotalCost sampleService sampleBmw =
      calculateTotalCostSpec sampleService sampleBmw ∧
    calculateTotalCost sampleService sampleBmw = 154 := by
  refine ⟨calculateTotalCost_matches_spec sampleService sampleBmw
      (by decide) (by norm_num [sampleService]), ?_⟩
  have hb : (("BMW" != "") &&
      strIncludes (strToLower "bmw") (strToLower "BMW")) = true := by decide
  norm_num [calculateTotalCost, sampleService, sampleBmw,
    applyPriceModifier, hb, roundCents, round_eq]

/-! ## Appointment route handlers (`src/routes/appointments.ts`) -/

/-- The `AppError(message, statusCode)` thrown by handlers. -/
structure AppError where
  message : String
  statusCode : Nat
deriving Repr, DecidableEq

/-- `PATCH /:id/reschedule` from the point where the appointment has
been found: permission check (customers may only touch their own
appointment), then the state guard rejecting `completed`/`cancelled`,
then overwrite of the date/time fields followed by
`addTimelineEntry('scheduled', 'Appointment rescheduled')`.  The
second component is the persisted appointment state after the request:
an error is thrown before any mutation, so it is the input unchanged. -/
def rescheduleHandler (userRole userId : String) (a : Appointment)
    (newDate : Nat) (newTime : String) (now : Nat) :
    Except AppError Appointment × Appointment :=
  if userRole == "customer" && a.customer != userId then
    (.error { message := "Access denied to this appointment",
              statusCode := 403 }, a)
  else if a.status == "completed" || a.status == "cancelled" then
    (.error { message := "Cannot reschedule completed or cancelled appointments",
              statusCode := 400 }, a)
  else
    let a1 := addTimelineEntry
      { a with appointmentDate := newDate, appointmentTime := newTime }
      "scheduled" "Appointment rescheduled" now
    (.ok a1, a1)

/-- The appointment a successful reschedule produces, as the
specification words it: date and time overwritten, status reset to
`scheduled`, one new timeline entry appended. -/
def rescheduledAppointment (a : Appointment) (newDate : Nat)
    (newTime : String) (now : Nat) : Appointment :=
  { a with
    appointmentDate := newDate, appointmentTime := newTime,
    status := "scheduled",
    timeline := a.timeline ++
      [{ timestamp := now, status := "scheduled",
         description := "Appointment rescheduled",
         notificationSent := false }] }

/-! ## C2: the reschedule guard -/

/-- C2: for an authorized reschedule request, an appointment whose
status is `completed` or `cancelled` is rejected with the state error
and is left completely unchanged; any other status succeeds,
overwrites the date and time, and always lands in status `scheduled`
with exactly one new timeline entry — regardless of the prior status. -/
theorem reschedule_state_guard (userRole userId : String)
    (a : Appointment) (newDate : Nat) (newTime : String) (now : Nat)
    (hauth : userRole = "customer" → a.customer = userId) :
    ((a.status = "completed" ∨ a.status = "cancelled") →
      rescheduleHandler userRole userId a newDate newTime now =
        (.error { message := "Cannot reschedule completed or cancelled appointments",
                  statusCode := 400 }, a)) ∧
    (a.status ≠ "completed" → a.status ≠ "cancelled" →
      rescheduleHandler userRole userId a newDate newTime now =
        (.ok (rescheduledAppointment a newDate newTime now),
          rescheduledAppointment a newDate newTime now)) := by
  have hperm : (userRole == "customer" && a.customer != userId) = false := by
    by_cases hr : userRole = "customer"
    · simp [hr, hauth hr]
    · simp [hr]
  constructor
  · intro hst
    rcases hst with h | h <;>
      simp [rescheduleHandler, hperm, h]
  · intro h1 h2
    simp [rescheduleHandler, hperm, h1, h2, addTimelineEntry,
      rescheduledAppointment]

/-- Witness for C2, exercising both branches: a completed appointment
is rejected unchanged, and the scheduled `sampleAppointment` is moved
to day 9 at 14:00. -/
theorem reschedule_state_guard_witness :
    (rescheduleHandler "customer" "cust1"
        { sampleAppointment with status := "completed" } 9 "14:00" 50 =
      (.error { message := "Cannot reschedule completed or cancelled appointments",
                statusCode := 400 },
        { sampleAppointment with status := "completed" })) ∧
    (rescheduleHandler "customer" "cust1" sampleAppointment 9 "14:00" 50 =
      (.ok (rescheduledAppointment sampleAppointment 9 "14:00" 50),
        rescheduledAppointment sampleAppointment 9 "14:00" 50)) :=
  ⟨(reschedule_state_guard "customer" "cust1"
      { sampleAppointment with status := "completed" } 9 "14:00" 50
      (by intro _; rfl)).1 (Or.inl rfl),
    (reschedule_state_guard "customer" "cust1" sampleAppointment
      9 "14:00" 50 (by intro _; rfl)).2 (by decide) (by decide)⟩

/-- `POST /` (create appointment) from the point where validation has
passed: vehicle lookup and ownership check, active-service resolution,
derived duration/cost computation, the coarse same-day capacity check
against appointments with status in
`{scheduled, confirmed, in-progress}`, and construction of the new
document with a single `scheduled` timeline entry.  The database is an
explicit list; the second component is the store after the request. -/
def createAppointmentHandler (userRole userId : String)
    (vehicles : List Vehicle) (serviceDB : List Service)
    (store : List Appointment)
    (vehicleId : String) (serviceIds : List String)
    (appointmentDate : Nat) (appointmentTime : String)
    (customerConcerns : String) (priority : String) (now : Nat) :
    Except AppError Appointment × List Appointment :=
  match vehicles.find? (fun v => v.id == vehicleId) with
  | none => (.error { message := "Vehicle not found", statusCode := 404 }, store)
  | some vehicle =>
    if userRole == "customer" && vehicle.owner != userId then
      (.error { message := "Access denied to this vehicle", statusCode := 403 },
        store)
    else
      let serviceList := serviceDB.filter
        (fun s => serviceIds.contains s.id && s.isActive)
      if serviceList.length != serviceIds.length then
        (.error { message := "One or more services not found", statusCode := 404 },
          store)
      else
        let estimatedDuration :=
          serviceList.foldl (fun total s => total + s.estimatedDuration) 0
        let estimatedCost :=
          serviceList.foldl (fun total s => total + calculateTotalCost s vehicle) 0
        let conflictingAppointments := store.filter
          (fun ap => ap.appointmentDate == appointmentDate &&
            (ap.status == "scheduled" || ap.status == "confirmed" ||
              ap.status == "in-progress"))
        if conflictingAppointments.length ≥ 5 then
          (.error { message := "No available time slots for the selected date and time",
                    statusCode := 409 }, store)
        else
          let appointment : Appointment :=
            { customer := userId, vehicle := vehicleId,
              services := serviceIds,
              appointmentDate := appointmentDate,
              appointmentTime := appointmentTime,
              estimatedDuration := estimatedDuration,
              estimatedCost := estimatedCost,
              customerConcerns := customerConcerns,
              priority := priority, status := "scheduled",
              timeline := [{ timestamp := now, status := "scheduled",
                             description := "Appointment scheduled",
                             notificationSent := false }] }
          (.ok appointment, store ++ [appointment])

/-- The appointment a successful creation produces, as the
specification words it: derived duration is the sum of the selected
services' durations, derived cost is the sum of each service's
`calculateTotalCost(vehicle)`, status `scheduled`, and exactly one
timeline entry with status `scheduled`. -/
def createdAppointment (userId vehicleId : String)
    (serviceIds : List String) (serviceList : List Service)
    (vehicle : Vehicle) (appointmentDate : Nat)
    (appointmentTime : String) (customerConcerns priority : String)
    (now : Nat) : Appointment :=
  { customer := userId, vehicle := vehicleId, services := serviceIds,
    appointmentDate := appointmentDate,
    appointmentTime := appointmentTime,
    estimatedDuration := (serviceList.map Service.estimatedDuration).sum,
    estimatedCost :=
      (serviceList.map (fun s => calculateTotalCost s vehicle)).sum,
    customerConcerns := customerConcerns, priority := priority,
    status := "scheduled",
    timeline := [{ timestamp := now, status := "scheduled",
                   description := "Appointment scheduled",
                   notificationSent := false }] }

theorem nat_foldl_eq_sum_map (l : List Service) (c : Nat) :
    l.foldl (fun total s => total + s.estimatedDuration) c =
      c + (l.map Service.estimatedDuration).sum := by
  induction l generalizing c with
  | nil => simp
  | cons s t ih => simp [ih, add_assoc]

theorem cost_foldl_eq_sum_map (v : Vehicle) (l : List Service) (c : ℚ) :
    l.foldl (fun total s => total + calculateTotalCost s v) c =
      c + (l.map (fun s => calculateTotalCost s v)).sum := by
  induction l generalizing c with
  | nil => simp
  | cons s t ih => simp [ih, add_assoc]

/-! ## C3: appointment creation -/

/-- C3: when the vehicle resolves (and is owned by a customer-role
caller) and every requested service id resolves to an active service,
creation is rejected with the scheduling-conflict error — and the
store is untouched — exactly when at least 5 appointments already
exist for the same date with status in
`{scheduled, confirmed, in-progress}`; otherwise the stored
appointment carries duration = sum of service durations, cost = sum of
per-service `calculateTotalCost(vehicle)`, status `scheduled` and a
single `scheduled` timeline entry. -/
theorem createAppointment_capacity_and_derived_fields
    (userRole userId : String) (vehicles : List Vehicle)
    (serviceDB : List Service) (store : List Appointment)
    (vehicleId : String) (serviceIds : List String)
    (appointmentDate : Nat) (appointmentTime : String)
    (customerConcerns priority : String) (now : Nat)
    (vehicle : Vehicle)
    (hveh : vehicles.find? (fun v => v.id == vehicleId) = some vehicle)
    (hown : userRole = "customer" → vehicle.owner = userId)
    (hsvc : (serviceDB.filter
        (fun s => serviceIds.contains s.id && s.isActive)).length =
      serviceIds.length) :
    (5 ≤ (store.filter
        (fun ap => ap.appointmentDate == appointmentDate &&
          (ap.status == "scheduled" || ap.status == "confirmed" ||
            ap.status == "in-progress"))).length →
      createAppointmentHandler userRole userId vehicles serviceDB store
          vehicleId serviceIds appointmentDate appointmentTime
          customerConcerns priority now =
        (.error { message := "No available time slots for the selected date and time",
                  statusCode := 409 }, store)) ∧
    ((store.filter
        (fun ap => ap.appointmentDate == appointmentDate &&
          (ap.status == "scheduled" || ap.status == "confirmed" ||
            ap.status == "in-progress"))).length < 5 →
      createAppointmentHandler userRole userId vehicles serviceDB store
          vehicleId serviceIds appointmentDate appointmentTime
          customerConcerns priority now =
        (.ok (createdAppointment userId vehicleId serviceIds
            (serviceDB.filter (fun s => serviceIds.contains s.id && s.isActive))
            vehicle appointmentDate appointmentTime customerConcerns
            priority now),
          store ++ [createdAppointment userId vehicleId serviceIds
            (serviceDB.filter (fun s => serviceIds.contains s.id && s.isActive))
            vehicle appointmentDate appointmentTime customerConcerns
            priority now])) := by
  have hperm : (userRole == "customer" && vehicle.owner != userId) = false := by
    by_cases hr : userRole = "customer"
    · simp [hr, hown hr]
    · simp [hr]
  simp only [List.elem_eq_mem] at hsvc
  constructor
  · intro hge
    simp [createAppointmentHandler, hveh, hperm, hsvc, hge]
  · intro hlt
    have hnot : ¬ 5 ≤ (store.filter
        (fun ap => ap.appointmentDate == appointmentDate &&
          (ap.status == "scheduled" || ap.status == "confirmed" ||
            ap.status == "in-progress"))).length := by omega
    simp [createAppointmentHandler, hveh, hperm, hsvc, hnot,
      createdAppointment, nat_foldl_eq_sum_map, cost_foldl_eq_sum_map]

/-- The two services of the end-to-end scenario: 45 minutes at 89.99
and 60 minutes at 149.99, no parts, no modifiers. -/
def sampleService45 : Service :=
  { id := "s45", name := "Oil change", basePrice := 8999/100,
    estimatedDuration := 45, parts := [], priceModifiers := [],
    isActive := true }

def sampleService60 : Service :=
  { id := "s60", name := "Brake inspection", basePrice := 14999/100,
    estimatedDuration := 60, parts := [], priceModifiers := [],
    isActive := true }

/-- Witness for C3: the end-to-end scenario on an empty store — the
created appointment has duration 45+60 = 105, cost 89.99+149.99 =
239.98, status `scheduled` and a single `scheduled` timeline entry. -/
theorem createAppointment_capacity_and_derived_fields_witness :
    createAppointmentHandler "customer" "cust1" [sampleBmw]
        [sampleService45, sampleService60] [] "veh1" ["s45", "s60"]
        7 "10:00" "" "normal" 3 =
      (.ok (createdAppointment "cust1" "veh1" ["s45", "s60"]
          [sampleService45, sampleService60] sampleBmw 7 "10:00" ""
          "normal" 3),
        [createdAppointment "cust1" "veh1" ["s45", "s60"]
          [sampleService45, sampleService60] sampleBmw 7 "10:00" ""
          "normal" 3]) ∧
    (createdAppointment "cust1" "veh1" ["s45", "s60"]
        [sampleService45, sampleService60] sampleBmw 7 "10:00" ""
        "normal" 3).estimatedDuration = 105 ∧
    (createdAppointment "cust1" "veh1" ["s45", "s60"]
        [sampleService45, sampleService60] sampleBmw 7 "10:00" ""
        "normal" 3).estimatedCost = 23998/100 ∧
    (createdAppointment "cust1" "veh1" ["s45", "s60"]
        [sampleService45, sampleService60] sampleBmw 7 "10:00" ""
        "normal" 3).status = "scheduled" ∧
    (createdAppointment "cust1" "veh1" ["s45", "s60"]
        [sampleService45, sampleService60] sampleBmw 7 "10:00" ""
        "normal" 3).timeline =
      [{ timestamp := 3, status := "scheduled",
         description := "Appointment scheduled",
         notificationSent := false }] := by
  refine ⟨?_, ?_, ?_, rfl, rfl⟩
  · have := (createAppointment_capacity_and_derived_fields "customer"
      "cust1" [sampleBmw] [sampleService45, sampleService60] []
      "veh1" ["s45", "s60"] 7 "10:00" "" "normal" 3 sampleBmw
      (by decide) (fun _ => rfl) (by decide)).2 (by decide)
    have hfilter : ([sampleService45, sampleService60].filter
        (fun s => (["s45", "s60"].contains s.id && s.isActive))) =
        [sampleService45, sampleService60] := by
      simp [sampleService45, sampleService60]
    rw [hfilter] at this
    simpa using this
  · norm_num [createdAppointment, sampleService45, sampleService60]
  · norm_num [createdAppointment, calculateTotalCost, sampleService45,
      sampleService60, applyPriceModifier, roundCents, round_eq]

/-! ## Diagnostic simulation (`src/routes/diagnostics.ts`) -/

/-- One row of the fixed diagnostic-code table. -/
structure CodeInfo where
  system : String
  category : String
  description : String
deriving Repr, DecidableEq

/-- The ten-code `diagnosticCodesDB` map, in insertion order. -/
def diagnosticCodesDB : List (String × CodeInfo) :=
  [("P0300",
    { system := "Engine", category := "Ignition",
      description := "Random/Multiple Cylinder Misfire Detected" }),
   ("P0171",
    { system := "Fuel/Air", category := "Fuel System",
      description := "System Too Lean (Bank 1)" }),
   ("P0420",
    { system := "Emission", category := "Catalytic Converter",
      description := "Catalyst System Efficiency Below Threshold" }),
   ("P0455",
    { system := "Emission", category := "EVAP",
      description := "Evaporative Emission Control System Leak Detected (Large Leak)" }),
   ("P0128",
    { system := "Cooling", category := "Thermostat",
      description := "Coolant Thermostat (Coolant Temperature Below Thermostat Regulating Temperature)" }),
   ("P0101",
    { system := "Air Intake", category := "Mass Air Flow",
      description := "Mass Air Flow Circuit Range/Performance Problem" }),
   ("P0505",
    { system := "Idle Control", category := "IAC",
      description := "Idle Control System Malfunction" }),
   ("P0717",
    { system := "Transmission", category := "Speed Sensor",
      description := "Input/Turbine Speed Sensor Circuit No Signal" }),
   ("B1318",
    { system := "Body", category := "Airbag",
      description := "Battery Voltage Low" }),
   ("U0100",
    { system := "Network", category := "Communication",
      description := "Lost Communication With ECM/PCM" })]

/-- `Array.from(diagnosticCodesDB.keys())`. -/
def codeKeys : List String := diagnosticCodesDB.map Prod.fst

/-- `calculateSeverity(code, vehicleAge, mileage)`: fixed critical set,
then emission-prefix rule, then vehicle-condition escalation.  The age
is an integer because `currentYear - vehicle.year` can be negative (the
schema admits model years up to two years in the future). -/
def calculateSeverity (code : String) (vehicleAge : ℤ) (mileage : Nat) :
    String :=
  if (["P0300", "U0100", "B1318"] : List String).contains code then "high"
  else if strStartsWith code "P04" || strStartsWith code "P05" then "medium"
  else if 15 < vehicleAge ∨ 250000 < mileage then "high"
  else if 10 < vehicleAge ∨ 150000 < mileage then "medium"
  else "low"

/-- A detected trouble code as pushed by the scan loop. -/
structure DetectedCode where
  code : String
  description : String
  severity : String
deriving Repr, DecidableEq

/-- One iteration of the scan loop of `simulateAutelScan`: draw a code
(the random draw `Math.floor(Math.random() * possibleCodes.length)` is
the oracle value `picks i`, reduced modulo the table size), look it up,
and push it with its computed severity unless already detected. -/
def scanStep (age : ℤ) (mileage : Nat) (picks : Nat → Nat)
    (detectedCodes : List DetectedCode) (i : Nat) : List DetectedCode :=
  let randomCode := codeKeys.getD (picks i % codeKeys.length) ""
  match diagnosticCodesDB.lookup randomCode with
  | some codeInfo =>
      if detectedCodes.any (fun c => c.code == randomCode) then
        detectedCodes
      else
        detectedCodes ++
          [{ code := randomCode, description := codeInfo.description,
             severity := calculateSeverity randomCode age mileage }]
  | none => detectedCodes

/-- `simulateAutelScan(vehicle)` with the random draws passed in as
oracle inputs: `gate` is the outcome of `Math.random() < codeChance`
(the chance itself only shapes the distribution of `gate`, so it drops
out of the functional model), `numRand` feeds
`Math.floor(Math.random() * 3)`, and `picks` supplies the per-iteration
code indices. -/
def simulateAutelScan (currentYear : ℤ) (vehicle : Vehicle)
    (gate : Bool) (numRand : Nat) (picks : Nat → Nat) :
    List DetectedCode :=
  let age := currentYear - vehicle.year
  let mileage := vehicle.mileage
  let numCodes := if gate then numRand % 3 + 1 else 0
  (List.range numCodes).foldl (scanStep age mileage picks) []

theorem getD_mod_mem (l : List String) (n : Nat) (hl : l ≠ []) :
    l.getD (n % l.length) "" ∈ l := by
  have hlen : 0 < l.length := List.length_pos.mpr hl
  have h : n % l.length < l.length := Nat.mod_lt _ hlen
  rw [List.getD_eq_getElem l "" h]
  exact List.getElem_mem h

theorem scanStep_invariant (age : ℤ) (mileage : Nat) (picks : Nat → Nat)
    (detected : List DetectedCode) (i : Nat)
    (h : ∀ c ∈ detected, c.code ∈ codeKeys ∧
      c.severity = calculateSeverity c.code age mileage) :
    ∀ c ∈ scanStep age mileage picks detected i,
      c.code ∈ codeKeys ∧
        c.severity = calculateSeverity c.code age mileage := by
  intro c hc
  simp only [scanStep] at hc
  split at hc
  · split at hc
    · exact h c hc
    · rcases List.mem_append.mp hc with hold | hnew
      · exact h c hold
      · rw [List.mem_singleton] at hnew
        subst hnew
        exact ⟨getD_mod_mem codeKeys (picks i) (by decide), rfl⟩
  · exact h c hc

theorem scan_foldl_invariant (age : ℤ) (mileage : Nat)
    (picks : Nat → Nat) (idxs : List Nat) (init : List DetectedCode)
    (hinit : ∀ c ∈ init, c.code ∈ codeKeys ∧
      c.severity = calculateSeverity c.code age mileage) :
    ∀ c ∈ idxs.foldl (scanStep age mileage picks) init,
      c.code ∈ codeKeys ∧
        c.severity = calculateSeverity c.code age mileage := by
  induction idxs generalizing init with
  | nil => exact hinit
  | cons i t ih =>
      intro c hc
      exact ih (scanStep age mileage picks init i)
        (scanStep_invariant age mileage picks init i hinit) c hc

/-! ## C6: severity of codes scanned from old high-mileage vehicles -/

/-- An old high-mileage vehicle: 20 years old in 2025, 260,000 km. -/
def oldCar : Vehicle :=
  { id := "veh2", owner := "cust2", make := "Toyota",
    model := "Corolla", year := 2005, vin := "JT200000000000000",
    mileage := 260000 }

/-- Counterexample to C6 as stated: the old high-mileage `oldCar`
generates `P0420` (table index 2), which is not in the always-high
list, yet its severity is `medium`, not `high` — the `P04`/`P05`
emission-prefix rule fires before the vehicle-condition escalation. -/
theorem old_vehicle_scan_can_produce_medium :
    15 < (2025 : ℤ) - (oldCar.year : ℤ) ∧
    250000 < oldCar.mileage ∧
    simulateAutelScan 2025 oldCar true 0 (fun _ => 2) =
      [{ code := "P0420",
         description := "Catalyst System Efficiency Below Threshold",
         severity := "medium" }] ∧
    ("P0420" ∈ (["P0300", "U0100", "B1318"] : List String) → False) ∧
    "medium" ≠ "high" := by
  refine ⟨by decide, by decide, ?_, by decide, by decide⟩
  decide

/-- C6 (amended): for a vehicle with age > 15 years and mileage
> 250,000, every code the scan generates is assigned severity `high`,
except codes prefixed `P04` or `P05` (the emission-related table codes
P0420, P0455 and P0505), which are assigned `medium`; the three
always-high codes fall under the `high` case. -/
theorem old_vehicle_scan_severity (currentYear : ℤ) (vehicle : Vehicle)
    (gate : Bool) (numRand : Nat) (picks : Nat → Nat)
    (hage : 15 < currentYear - vehicle.year)
    (hmil : 250000 < vehicle.mileage) :
    ∀ c ∈ simulateAutelScan currentYear vehicle gate numRand picks,
      c.severity =
        if strStartsWith c.code "P04" || strStartsWith c.code "P05" then
          "medium"
        else "high" := by
  intro c hc
  have hinv := scan_foldl_invariant (currentYear - vehicle.year)
    vehicle.mileage picks
    (List.range (if gate then numRand % 3 + 1 else 0)) []
    (by intro c hc; exact absurd hc (List.not_mem_nil c)) c
    (by simpa [simulateAutelScan] using hc)
  obtain ⟨hkey, hsev⟩ := hinv
  rw [hsev]
  have hkey10 : c.code = "P0300" ∨ c.code = "P0171" ∨ c.code = "P0420" ∨
      c.code = "P0455" ∨ c.code = "P0128" ∨ c.code = "P0101" ∨
      c.code = "P0505" ∨ c.code = "P0717" ∨ c.code = "B1318" ∨
      c.code = "U0100" := by
    simpa [codeKeys, diagnosticCodesDB] using hkey
  rcases hkey10 with h | h | h | h | h | h | h | h | h | h <;> rw [h] <;>
    simp +decide [calculateSeverity, strStartsWith, isPrefixList, hage]

/-- Witness for C6 (amended) at the counterexample configuration: the
single generated code is `P0420` with severity `medium`. -/
theorem old_vehicle_scan_severity_witness :
    ({ code := "P0420",
       description := "Catalyst System Efficiency Below Threshold",
       severity := "medium" } : DetectedCode).severity =
      if strStartsWith "P0420" "P04" || strStartsWith "P0420" "P05" then
        "medium"
      else "high" :=
  old_vehicle_scan_severity 2025 oldCar true 0 (fun _ => 2)
    (by decide) (by decide)
    { code := "P0420",
      description := "Catalyst System Efficiency Below Threshold",
      severity := "medium" } (by decide)

/-! ## AzureOpenAI service (`src/services/azureOpenAI.ts`) -/

/-- Customer snapshot carried in the chat context bag. -/
structure CustomerInfo where
  firstName : String
  lastName : String
  email : String
  phone : String
deriving Repr, DecidableEq

/-- Vehicle snapshot carried in the chat context bag (the populated
fields `year make model vin`). -/
structure VehicleInfo where
  year : Nat
  make : String
  model : String
  vin : String
deriving Repr, DecidableEq

/-- Appointment snapshot carried in the chat context bag. -/
structure AppointmentInfo where
  status : String
  appointmentDate : Nat
  appointmentTime : String
  customerConcerns : String
deriving Repr, DecidableEq

/-- The `ChatContext` bag of partial snapshots. -/
structure ChatContext where
  customerInfo : Option CustomerInfo := none
  vehicleInfo : Option VehicleInfo := none
  appointmentInfo : Option AppointmentInfo := none
deriving Repr, DecidableEq

/-- A role-tagged outbound message (`role: 'system'|'user'|'assistant'`). -/
structure ModelMessage where
  role : String
  content : String
deriving Repr, DecidableEq

def hoursResponse : String :=
  "We\x27re open Monday-Friday 8:00 AM - 6:00 PM, Saturday 9:00 AM - 4:00 PM, and closed Sundays. Is there a specific service you\x27d like to schedule?"

def pricingResponse : String :=
  "I\x27d be happy to provide pricing! For example, oil changes range from $80-120 depending on your European vehicle. Could you tell me your vehicle make and model for a more accurate estimate?"

def schedulingResponse : String :=
  "I can help you schedule an appointment! We have availability this week. What type of service do you need, and what\x27s your preferred date and time?"

def locationResponse : String :=
  "We\x27re located at 123 Main St, Brampton, ON L6T 4M5, specializing in European vehicles. Easy parking available. What brings your vehicle in today?"

def diagnosticResponse : String :=
  "Our diagnostic service costs $150-200 and uses professional Autel equipment for accurate results. We can explain any codes found and provide repair recommendations. Would you like to schedule a diagnostic?"

def specializationResponse : String :=
  "Excellent! We specialize in European vehicles with over 20 years of experience. Our technicians are trained specifically for your vehicle\x27s needs. What service can we help you with?"

def greetingResponse : String :=
  "Welcome to AutoCure! I\x27m here to help with scheduling, service information, pricing, or any questions about your European vehicle. How can I assist you today?"

/-- The ordered keyword chain of `getMockResponse` after the
context-aware branches: first matching rule wins, matching is
case-insensitive substring search on the (already lowercased) last
message. -/
def standardMockResponse (lastMessage : String) : String :=
  if strIncludes lastMessage "hours" || strIncludes lastMessage "open" then
    hoursResponse
  else if strIncludes lastMessage "price" || strIncludes lastMessage "cost" ||
      strIncludes lastMessage "quote" then
    pricingResponse
  else if strIncludes lastMessage "appointment" ||
      strIncludes lastMessage "book" || strIncludes lastMessage "schedule" then
    schedulingResponse
  else if strIncludes lastMessage "location" ||
      strIncludes lastMessage "address" ||
      strIncludes lastMessage "directions" then
    locationResponse
  else if strIncludes lastMessage "diagnostic" ||
      strIncludes lastMessage "check engine" ||
      strIncludes lastMessage "error code" then
    diagnosticResponse
  else if strIncludes lastMessage "bmw" || strIncludes lastMessage "mercedes" ||
      strIncludes lastMessage "audi" ||
      strIncludes lastMessage "volkswagen" ||
      strIncludes lastMessage "porsche" then
    specializationResponse
  else
    greetingResponse

/-- `getMockResponse(messages, context)`: the deterministic fallback.
The last message is lowercased (empty when there is none); the
context-aware early returns come first (`customerInfo` personalizes,
`appointmentInfo` and `vehicleInfo` trigger dedicated replies), then
the standard keyword chain.  The JavaScript guard
`lastMessage.includes('appointment') && context.appointmentInfo` is
rendered as a match on the conditional option. -/
def getMockResponse (messages : List ModelMessage)
    (context : ChatContext) : String :=
  let lastMessage :=
    strToLower ((messages.getLast?.map ModelMessage.content).getD "")
  match context.customerInfo with
  | some customerInfo =>
    let firstName :=
      if customerInfo.firstName = "" then "there" else customerInfo.firstName
    match (if strIncludes lastMessage "appointment" then
        context.appointmentInfo else none) with
    | some appointmentInfo =>
        "Hi " ++ firstName ++ "! I can see your " ++
          appointmentInfo.status ++
          " appointment. How can I help you with it today?"
    | none =>
      match context.vehicleInfo with
      | some vehicleInfo =>
          if strIncludes lastMessage "service" ||
              strIncludes lastMessage "maintenance" then
            "Hello " ++ firstName ++ "! For your " ++
              toString vehicleInfo.year ++ " " ++ vehicleInfo.make ++ " " ++
              vehicleInfo.model ++
              ", I\x27d recommend our comprehensive maintenance package. Would you like to schedule a service appointment?"
          else standardMockResponse lastMessage
      | none => standardMockResponse lastMessage
  | none => standardMockResponse lastMessage

/-! ## C7: the deterministic fallback classification -/

/-- Counterexample to C7 as stated: with no customer context, the
input "How much for an oil change?" contains none of the pricing
keywords `price`/`cost`/`quote` (nor any other rule keyword), so
`getMockResponse` yields the generic greeting, not the pricing
branch. -/
theorem mock_oil_change_question_is_not_pricing :
    getMockResponse
        [{ role := "user", content := "How much for an oil change?" }] {} =
      greetingResponse ∧
    greetingResponse ≠ pricingResponse := by
  constructor
  · decide
  · decide

/-- C7 (amended): classification of the last message is by ordered
case-insensitive keyword substring tests, first match wins: "What are
your hours?" hits the hours branch; "How much does an oil change
cost?" hits the pricing branch (the claimed phrasing "How much for an
oil change?" contains no pricing keyword and yields the generic
greeting); an input containing "BMW" and no earlier keyword hits the
specialization branch; an input matching no rule yields the generic
greeting. -/
theorem mock_classification_examples :
    getMockResponse
        [{ role := "user", content := "What are your hours?" }] {} =
      hoursResponse ∧
    getMockResponse
        [{ role := "user",
           content := "How much does an oil change cost?" }] {} =
      pricingResponse ∧
    getMockResponse
        [{ role := "user", content := "How much for an oil change?" }] {} =
      greetingResponse ∧
    getMockResponse
        [{ role := "user", content := "I drive a BMW 330i" }] {} =
      specializationResponse ∧
    getMockResponse [{ role := "user", content := "Hello!" }] {} =
      greetingResponse := by
  refine ⟨by decide, by decide, by decide, by decide, by decide⟩

/-! ## Diagnostic explanations (`azureOpenAI.ts`) -/

/-- The structured explanation returned for a trouble code. -/
structure DiagnosticExplanation where
  title : String
  description : String
  symptoms : List String
  causes : List String
  urgency : String
  estimatedCost : String
  category : String
  recommendations : List String
deriving Repr, DecidableEq

/-- JavaScript `cost.replace('$', '')`: drop the first dollar sign. -/
def removeFirstDollar : List Char → List Char
  | [] => []
  | c :: t => if c == '$' then t else c :: removeFirstDollar t

/-- JavaScript `parseInt`: value of the leading digit run, `none` when
there is none (`NaN`). -/
def parseIntLeading (l : List Char) : Option Nat :=
  digitsVal? (l.takeWhile Char.isDigit)

/-- The destructuring
`const [minStr, maxStr] = cost.replace('$','').split('-')` followed by
`parseInt(minStr || '200')` and `parseInt(maxStr || '600')`.  Every
cost string in the table parses, so the `NaN` case is mapped to 0. -/
def parseCostRange (cost : String) : Nat × Nat :=
  let parts := splitOnChar '-' (removeFirstDollar cost.toList)
  let minStr := parts.headD []
  let maxStr := (parts.get? 1).getD []
  ((parseIntLeading (if minStr.isEmpty then "200".toList else minStr)).getD 0,
    (parseIntLeading (if maxStr.isEmpty then "600".toList else maxStr)).getD 0)

/-- The luxury price adjustment:
`` `$${Math.round(min * 1.3)}-${Math.round(max * 1.5)}` ``. -/
def scaleLuxuryCost (cost : String) : String :=
  let p := parseCostRange cost
  "$" ++ toString ((round ((p.1 : ℚ) * 13 / 10)).toNat) ++ "-" ++
    toString ((round ((p.2 : ℚ) * 3 / 2)).toNat)

/-- The fixed luxury-make list. -/
def luxuryMakes : List String := ["BMW", "Mercedes-Benz", "Audi", "Porsche"]

/-- The `mockExplanations` lookup table of
`getMockDiagnosticExplanation`. -/
def mockExplanations : List (String × DiagnosticExplanation) :=
  [("P0300",
    { title := "Random/Multiple Cylinder Misfire Detected",
      description := "Your engine is misfiring, meaning one or more cylinders are not firing properly. This affects engine performance and can cause damage if not addressed.",
      symptoms := ["Rough idle or engine shaking",
        "Loss of power during acceleration", "Poor fuel economy",
        "Engine hesitation", "Check engine light"],
      causes := ["Worn spark plugs or ignition coils",
        "Fuel system problems", "Vacuum leaks", "Carbon buildup",
        "Compression issues"],
      urgency := "high", estimatedCost := "$300-1200",
      category := "Engine/Ignition System",
      recommendations := ["Stop driving if severely misfiring",
        "Schedule diagnostic immediately", "Check for pending codes"] }),
   ("P0171",
    { title := "System Too Lean (Bank 1)",
      description := "Your engine is running lean, meaning there\x27s too much air or not enough fuel in the combustion mixture.",
      symptoms := ["Poor acceleration", "Rough idle", "Engine hesitation",
        "Check engine light", "Possible stalling"],
      causes := ["Vacuum leak in intake system", "Faulty oxygen sensor",
        "Dirty or failing mass airflow sensor", "Fuel pump issues",
        "Clogged fuel injectors"],
      urgency := "medium", estimatedCost := "$200-800",
      category := "Fuel/Air System",
      recommendations := ["Monitor fuel economy",
        "Schedule diagnostic within a week", "Check for vacuum leaks"] }),
   ("P0420",
    { title := "Catalyst System Efficiency Below Threshold (Bank 1)",
      description := "Your catalytic converter is not working efficiently, which affects emissions and can lead to failed emissions tests.",
      symptoms := ["Check engine light", "Reduced fuel economy",
        "Possible sulfur smell", "Failed emissions test"],
      causes := ["Worn catalytic converter", "Faulty oxygen sensors",
        "Engine misfires damaging catalyst", "Contaminated catalyst"],
      urgency := "medium", estimatedCost := "$800-2500",
      category := "Emission Control System",
      recommendations := ["Schedule diagnostic soon",
        "May affect emissions test",
        "Address any engine misfires first"] }),
   ("P0455",
    { title := "Evaporative Emission Control System Leak Detected (Large Leak)",
      description := "There\x27s a large leak in your vehicle\x27s evaporative emission system, which captures fuel vapors.",
      symptoms := ["Check engine light", "Fuel smell",
        "Possible fuel economy decrease"],
      causes := ["Loose or damaged gas cap", "Cracked EVAP lines",
        "Faulty purge valve", "Damaged fuel tank"],
      urgency := "low", estimatedCost := "$50-400",
      category := "Emission Control System",
      recommendations := ["Check gas cap first", "Safe to drive",
        "Schedule service when convenient"] })]

/-- The generic template used for codes outside the table. -/
def genericMockExplanation (code : String) : DiagnosticExplanation :=
  { title := "Diagnostic Code " ++ code,
    description := "A diagnostic trouble code has been detected in your vehicle\x27s system. Professional diagnosis is recommended to determine the exact cause.",
    symptoms := ["Check engine light", "Possible performance issues",
      "Various symptoms possible"],
    causes := ["Multiple potential causes", "Requires diagnostic scan"],
    urgency := "medium", estimatedCost := "$150-600",
    category := "Vehicle System",
    recommendations := ["Schedule diagnostic appointment",
      "Professional scan needed"] }

/-- `mockExplanations[code] || generic`. -/
def mockExplanationFor (code : String) : DiagnosticExplanation :=
  (mockExplanations.lookup code).getD (genericMockExplanation code)

/-- `getMockDiagnosticExplanation(code, vehicleInfo)`: hardcoded
lookup (generic template for unrecognized codes), then the luxury
price adjustment when the vehicle has a make in the fixed list. -/
def getMockDiagnosticExplanation (code : String)
    (vehicleInfo : Option VehicleInfo) : DiagnosticExplanation :=
  let explanation := mockExplanationFor code
  match vehicleInfo with
  | some vi =>
      if luxuryMakes.contains vi.make then
        { explanation with
          estimatedCost := scaleLuxuryCost explanation.estimatedCost }
      else explanation
  | none => explanation

/-- `parseTextResponse(response, code)`: naive line-splitting fallback
when the model reply is not parseable as structured data. -/
def parseTextResponse (response : String) (code : String) :
    DiagnosticExplanation :=
  let lines := ((splitOnChar '\n' response.toList).map String.mk).filter
    (fun line => line.toList.any (fun c => !c.isWhitespace))
  { title := (lines.get? 0).getD ("Diagnostic Code " ++ code),
    description :=
      (lines.get? 1).getD "A diagnostic trouble code has been detected.",
    symptoms := (lines.filter (fun l => strIncludes l "symptom")).take 3,
    causes := (lines.filter (fun l => strIncludes l "cause")).take 3,
    urgency := "medium", estimatedCost := "$200-600",
    category := "Engine/Emission",
    recommendations := ["Professional diagnostic scan",
      "Repair as needed"] }

/-- Outcome of the language-model call inside
`generateDiagnosticExplanation`, as an oracle input: `failure` is the
outer catch (the call itself threw); `success parsed raw` is a reply
`raw`, with `parsed = some e` when `JSON.parse` yields the structured
explanation `e` and `none` when parsing throws. -/
inductive LMOutcome where
  | failure
  | success (parsed : Option DiagnosticExplanation) (raw : String)
deriving Repr, DecidableEq

/-- `generateDiagnosticExplanation(code, vehicleInfo)`: mock mode uses
the hardcoded lookup; live mode returns the JSON-parsed model reply
as-is, falls back to `parseTextResponse` when parsing fails, and to the
hardcoded lookup when the call throws. -/
def generateDiagnosticExplanation (useMockMode : Bool) (lm : LMOutcome)
    (diagnosticCode : String) (vehicleInfo : Option VehicleInfo) :
    DiagnosticExplanation :=
  if useMockMode then getMockDiagnosticExplanation diagnosticCode vehicleInfo
  else
    match lm with
    | .failure => getMockDiagnosticExplanation diagnosticCode vehicleInfo
    | .success parsed raw =>
        match parsed with
        | some e => e
        | none => parseTextResponse raw diagnosticCode

/-! ## C8: the luxury-make price adjustment -/

/-- A luxury vehicle snapshot and a structured explanation as the
language model would return it. -/
def luxuryVehicleInfo : VehicleInfo :=
  { year := 2020, make := "BMW", model := "X5",
    vin := "WBA00000000000001" }

def lmExplanation : DiagnosticExplanation :=
  { title := "Misfire detected", description := "Cylinder misfire.",
    symptoms := ["Rough idle"], causes := ["Worn plugs"],
    urgency := "high", estimatedCost := "$100-200",
    category := "Engine", recommendations := ["Inspect ignition"] }

/-- Counterexample to C8 as stated: in live (non-mock) mode with a
JSON-parseable model reply, the explanation is returned without any
cost-range scaling even though the vehicle's make (BMW) is in the
luxury list — scaling min x1.3 / max x1.5 would have produced
"$130-300", but the returned range is the model's own "$100-200". -/
theorem luxury_scaling_skipped_for_model_source :
    luxuryMakes.contains luxuryVehicleInfo.make = true ∧
    generateDiagnosticExplanation false
        (.success (some lmExplanation) "") "P0300"
        (some luxuryVehicleInfo) = lmExplanation ∧
    lmExplanation.estimatedCost = "$100-200" ∧
    scaleLuxuryCost "$100-200" = "$130-300" ∧
    ("$100-200" : String) ≠ "$130-300" := by
  refine ⟨by decide, rfl, rfl, ?_, by decide⟩
  have hp : parseCostRange "$100-200" = (100, 200) := by decide
  have h1 : (round (((100 : Nat) : ℚ) * 13 / 10)).toNat = 130 := by
    norm_num [round_eq]
    decide
  have h2 : (round (((200 : Nat) : ℚ) * 3 / 2)).toNat = 300 := by
    norm_num [round_eq]
    decide
  simp only [scaleLuxuryCost, hp]
  rw [h1, h2]
  decide

/-- C8 (amended): the luxury cost-range adjustment (min x1.3, max
x1.5, rounded) is applied exactly when the explanation comes from the
hardcoded lookup — i.e. in mock mode, or in live mode when the
language-model call throws; a live-mode explanation produced by the
language model (JSON-parsed) is returned without scaling. -/
theorem luxury_scaling_applies_to_mock_lookup_only (code : String)
    (vi : VehicleInfo) (hlux : luxuryMakes.contains vi.make = true) :
    getMockDiagnosticExplanation code (some vi) =
      { mockExplanationFor code with
        estimatedCost :=
          scaleLuxuryCost (mockExplanationFor code).estimatedCost } ∧
    (∀ lm, generateDiagnosticExplanation true lm code (some vi) =
      getMockDiagnosticExplanation code (some vi)) ∧
    (generateDiagnosticExplanation false .failure code (some vi) =
      getMockDiagnosticExplanation code (some vi)) ∧
    (∀ e raw, generateDiagnosticExplanation false (.success (some e) raw)
        code (some vi) = e) := by
  refine ⟨?_, fun lm => rfl, rfl, fun e raw => rfl⟩
  have hmem : vi.make ∈ luxuryMakes := by simpa using hlux
  simp [getMockDiagnosticExplanation, hmem]

/-- Witness for C8 (amended) at code P0300 and the BMW snapshot: the
mock path scales "$300-1200" to "$390-1800". -/
theorem luxury_scaling_applies_to_mock_lookup_only_witness :
    (getMockDiagnosticExplanation "P0300" (some luxuryVehicleInfo) =
      { mockExplanationFor "P0300" with
        estimatedCost :=
          scaleLuxuryCost (mockExplanationFor "P0300").estimatedCost } ∧
    (∀ lm, generateDiagnosticExplanation true lm "P0300"
        (some luxuryVehicleInfo) =
      getMockDiagnosticExplanation "P0300" (some luxuryVehicleInfo)) ∧
    (generateDiagnosticExplanation false .failure "P0300"
        (some luxuryVehicleInfo) =
      getMockDiagnosticExplanation "P0300" (some luxuryVehicleInfo)) ∧
    (∀ e raw, generateDiagnosticExplanation false (.success (some e) raw)
        "P0300" (some luxuryVehicleInfo) = e)) ∧
    scaleLuxuryCost (mockExplanationFor "P0300").estimatedCost =
      "$390-1800" := by
  refine ⟨luxury_scaling_applies_to_mock_lookup_only "P0300"
    luxuryVehicleInfo (by decide), ?_⟩
  have hc : (mockExplanationFor "P0300").estimatedCost = "$300-1200" := by
    decide
  rw [hc]
  have hp : parseCostRange "$300-1200" = (300, 1200) := by decide
  have h1 : (round (((300 : Nat) : ℚ) * 13 / 10)).toNat = 390 := by
    norm_num [round_eq]
    decide
  have h2 : (round (((1200 : Nat) : ℚ) * 3 / 2)).toNat = 1800 := by
    norm_num [round_eq]
    decide
  simp only [scaleLuxuryCost, hp]
  rw [h1, h2]
  decide

/-! ## Chat sessions and context enrichment (`src/routes/ai.ts`) -/

/-- A message stored in a chat session log. -/
structure SessionMessage where
  id : String
  sessionId : String
  userId : Option String
  message : String
  sender : String
  timestamp : Nat
deriving Repr, DecidableEq

/-- An in-memory `IChatSession`.  `userId` is the optional tag set at
creation time from the (optionally) authenticated request. -/
structure ChatSession where
  id : String
  userId : Option String
  isActive : Bool
  messages : List SessionMessage
  context : ChatContext
  createdAt : Nat
  updatedAt : Nat
deriving Repr, DecidableEq

/-- `getOrCreateSession(sessionId?, userId?)`: use the supplied id or
mint a fresh one (`session_${Date.now()}_${random}`, passed in as the
opaque `freshId`); return the existing session unchanged when the id
is present in the map, otherwise insert a new active session with
empty log and empty context, tagged with the caller's `userId`.  The
session map is an association list; the second component is the map
after the call. -/
def getOrCreateSession (sessions : List (String × ChatSession))
    (sessionId : Option String) (userId : Option String) (now : Nat)
    (freshId : String) : ChatSession × List (String × ChatSession) :=
  let id := match sessionId with | some s => s | none => freshId
  match sessions.lookup id with
  | some s => (s, sessions)
  | none =>
      let newSession : ChatSession :=
        { id := id, userId := userId, isActive := true, messages := [],
          context := {}, createdAt := now, updatedAt := now }
      (newSession, sessions ++ [(id, newSession)])

/-- `GET /chat/:sessionId`: 404 when the id is not in the session map;
403 when the session carries a `userId` tag and the request is
authenticated as a different user; otherwise the full session is
returned. -/
def getChatHistory (sessions : List (String × ChatSession))
    (reqUser : Option String) (sessionId : String) :
    Except AppError ChatSession :=
  match sessions.lookup sessionId with
  | none => .error { message := "Chat session not found", statusCode := 404 }
  | some session =>
      match reqUser, session.userId with
      | some u, some su =>
          if su ≠ u then
            .error { message := "Access denied to this chat session",
                     statusCode := 403 }
          else .ok session
      | _, _ => .ok session

/-- The context-enrichment phase of `POST /chat`: start from the
accumulated session context; an authenticated user seeds
`customerInfo`; a supplied `appointmentId` that resolves sets
`appointmentInfo` and — when the appointment has a populated vehicle —
sets `vehicleInfo` from it; a supplied `vehicleId` is fetched and set
only when `vehicleInfo` is still unset.  Database lookups are
association lists; an appointment row carries its snapshot and its
optional populated vehicle. -/
def enrichContext (sessionContext : ChatContext)
    (reqUser : Option CustomerInfo)
    (appointments : List (String × (AppointmentInfo × Option VehicleInfo)))
    (vehicles : List (String × VehicleInfo))
    (reqAppointmentId reqVehicleId : Option String) : ChatContext :=
  let e1 := match reqUser with
    | some u => { sessionContext with customerInfo := some u }
    | none => sessionContext
  let e2 := match reqAppointmentId with
    | some aid =>
        match appointments.lookup aid with
        | some (ai, av) =>
            let t := { e1 with appointmentInfo := some ai }
            match av with
            | some v => { t with vehicleInfo := some v }
            | none => t
        | none => e1
    | none => e1
  match reqVehicleId with
  | some vid =>
      if e2.vehicleInfo.isNone then
        match vehicles.lookup vid with
        | some v => { e2 with vehicleInfo := some v }
        | none => e2
      else e2
  | none => e2

/-! ## C9: enrichment of vehicleInfo from an appointment -/

/-- The vehicle snapshot already accumulated in the session context,
and the different vehicle linked to the supplied appointment. -/
def ctxVehicle : VehicleInfo :=
  { year := 2015, make := "Audi", model := "A4",
    vin := "WAU00000000000001" }

def apptVehicle : VehicleInfo :=
  { year := 2019, make := "Porsche", model := "Macan",
    vin := "WP100000000000001" }

def sampleAppointmentInfo : AppointmentInfo :=
  { status := "confirmed", appointmentDate := 7,
    appointmentTime := "10:00", customerConcerns := "Engine noise" }

/-- Counterexample to C9 as stated: the session context already holds
`vehicleInfo` (`ctxVehicle`), yet resolving the supplied
`appointmentId` overwrites it with the appointment's linked vehicle —
the only-if-unset guard does not exist on the appointment branch. -/
theorem appointment_branch_overwrites_vehicleInfo :
    (enrichContext { vehicleInfo := some ctxVehicle } none
        [("appt1", (sampleAppointmentInfo, some apptVehicle))] []
        (some "appt1") none).vehicleInfo = some apptVehicle ∧
    apptVehicle ≠ ctxVehicle := by
  constructor
  · decide
  · decide

/-- C9 (amended): when the supplied `appointmentId` resolves to an
appointment with a linked vehicle, `vehicleInfo` is set from that
vehicle unconditionally, overwriting any value already accumulated in
the session context; the only-if-unset guard applies only to the
`vehicleId` branch, which indeed never overwrites an existing
`vehicleInfo`. -/
theorem enrich_appointment_vehicle_unconditional
    (sessionContext : ChatContext) (reqUser : Option CustomerInfo)
    (appointments : List (String × (AppointmentInfo × Option VehicleInfo)))
    (vehicles : List (String × VehicleInfo)) (aid : String)
    (reqVehicleId : Option String) (ai : AppointmentInfo)
    (v : VehicleInfo)
    (hlk : appointments.lookup aid = some (ai, some v)) :
    ((enrichContext sessionContext reqUser appointments vehicles
        (some aid) reqVehicleId).vehicleInfo = some v ∧
      (enrichContext sessionContext reqUser appointments vehicles
        (some aid) reqVehicleId).appointmentInfo = some ai) ∧
    (∀ (ctx : ChatContext) (vv : VehicleInfo) (vid : String),
      ctx.vehicleInfo = some vv →
        (enrichContext ctx reqUser appointments vehicles none
          (some vid)).vehicleInfo = some vv) := by
  constructor
  · cases reqUser <;> cases reqVehicleId <;>
      simp [enrichContext, hlk]
  · intro ctx vv vid hv
    cases reqUser <;> simp [enrichContext, hv]

/-- Witness for C9 (amended) at the counterexample configuration. -/
theorem enrich_appointment_vehicle_unconditional_witness :
    ((enrichContext { vehicleInfo := some ctxVehicle } none
        [("appt1", (sampleAppointmentInfo, some apptVehicle))] []
        (some "appt1") none).vehicleInfo = some apptVehicle ∧
      (enrichContext { vehicleInfo := some ctxVehicle } none
        [("appt1", (sampleAppointmentInfo, some apptVehicle))] []
        (some "appt1") none).appointmentInfo = some sampleAppointmentInfo) ∧
    (∀ (ctx : ChatContext) (vv : VehicleInfo) (vid : String),
      ctx.vehicleInfo = some vv →
        (enrichContext ctx none
          [("appt1", (sampleAppointmentInfo, some apptVehicle))] []
          none (some vid)).vehicleInfo = some vv) :=
  enrich_appointment_vehicle_unconditional
    { vehicleInfo := some ctxVehicle } none
    [("appt1", (sampleAppointmentInfo, some apptVehicle))] []
    "appt1" none sampleAppointmentInfo apptVehicle (by decide)

/-! ## C10: chat-history access control -/

/-- C10: reading chat history by session id fails with the not-found
error iff no session with that id exists; it fails with the
access-denied error iff the session exists, carries a `userId` tag,
and the request is authenticated as a different user; a session whose
`userId` is unset is returned in full to any caller; and continuing an
existing session through `getOrCreateSession` returns it — and the
session map — unchanged, so an authenticated continuation never
attaches the caller's id to a session created without one. -/
theorem chat_history_access_control
    (sessions : List (String × ChatSession)) (reqUser : Option String)
    (sessionId : String) :
    (getChatHistory sessions reqUser sessionId =
        .error { message := "Chat session not found", statusCode := 404 } ↔
      sessions.lookup sessionId = none) ∧
    (getChatHistory sessions reqUser sessionId =
        .error { message := "Access denied to this chat session",
                 statusCode := 403 } ↔
      (∃ session, sessions.lookup sessionId = some session ∧
        ∃ su u, session.userId = some su ∧ reqUser = some u ∧ su ≠ u)) ∧
    (∀ session, sessions.lookup sessionId = some session →
      session.userId = none →
        getChatHistory sessions reqUser sessionId = .ok session) ∧
    (∀ session userId now freshId,
      sessions.lookup sessionId = some session →
        getOrCreateSession sessions (some sessionId) userId now freshId =
          (session, sessions)) := by
  refine ⟨?_, ?_, ?_, ?_⟩
  · cases hlk : sessions.lookup sessionId with
    | none => simp [getChatHistory, hlk]
    | some session =>
        simp only [getChatHistory, hlk]
        cases reqUser with
        | none => simp
        | some u =>
            cases hsu : session.userId with
            | none => simp
            | some su =>
                by_cases hne : su ≠ u <;> simp [hne]
  · cases hlk : sessions.lookup sessionId with
    | none => simp [getChatHistory, hlk]
    | some session =>
        simp only [getChatHistory, hlk]
        cases reqUser with
        | none => simp
        | some u =>
            cases hsu : session.userId with
            | none => simp [hsu]
            | some su =>
                by_cases hne : su ≠ u <;> simp [hne, hsu]
  · intro session hlk hsu
    simp only [getChatHistory, hlk, hsu]
  · intro session userId now freshId hlk
    simp [getOrCreateSession, hlk]

/-- A stored session with no `userId` tag, created by an
unauthenticated caller. -/
def anonSession : ChatSession :=
  { id := "sess1", userId := none, isActive := true, messages := [],
    context := {}, createdAt := 0, updatedAt := 0 }

/-- Witness for C10 on a one-session store read by an authenticated
stranger: the untagged session is returned in full and continuing it
leaves the map unchanged. -/
theorem chat_history_access_control_witness :
    (getChatHistory [("sess1", anonSession)] (some "otherUser") "sess1" =
        .error { message := "Chat session not found", statusCode := 404 } ↔
      ([("sess1", anonSession)].lookup "sess1" = none)) ∧
    (getChatHistory [("sess1", anonSession)] (some "otherUser") "sess1" =
        .error { message := "Access denied to this chat session",
                 statusCode := 403 } ↔
      (∃ session,
        ([("sess1", anonSession)]).lookup "sess1" = some session ∧
        ∃ su u, session.userId = some su ∧
          (some "otherUser" : Option String) = some u ∧ su ≠ u)) ∧
    (∀ session,
      ([("sess1", anonSession)]).lookup "sess1" = some session →
      session.userId = none →
        getChatHistory [("sess1", anonSession)] (some "otherUser")
          "sess1" = .ok session) ∧
    (∀ session userId now freshId,
      ([("sess1", anonSession)]).lookup "sess1" = some session →
        getOrCreateSession [("sess1", anonSession)] (some "sess1")
          userId now freshId = (session, [("sess1", anonSession)])) :=
  chat_history_access_control [("sess1", anonSession)]
    (some "otherUser") "sess1"

end AutoCure
